import Mathlib

/- Verification development for the Law-Assistant RAG engine.
   Shallow embedding of: the document cache (document_cache.py), the
   FAISS-backed vector store shared by processing.py and basicModel.py, the
   query-expansion parser (query.py), the notes generator (processing.py),
   the LangChain retrieval pipeline (retrieval.py), the agent answer path
   (agents.py) and the boot sequence (Api.py), together with theorems for
   the specification claims. -/

/- ## Python-level helpers -/

/-- Python list indexing: a negative index counts from the end of the list,
and an out-of-range index raises IndexError, modelled as none. -/
def pyIndex {α : Type} (l : List α) (i : Int) : Option α :=
  if 0 ≤ i then l.get? i.toNat
  else if (0 : Int) ≤ (l.length : Int) + i then l.get? ((l.length : Int) + i).toNat
  else none

/-- Python dict modelled as an association list in insertion order with
unique keys; assignment to an existing key updates it in place. -/
abbrev PyDict (β : Type) := List (String × β)

/-- Lookup of a key in a dict, as dict.get: none when the key is absent. -/
def dictLookup {β : Type} (d : PyDict β) (k : String) : Option β :=
  match d with
  | [] => none
  | (k0, v0) :: rest => if k0 = k then some v0 else dictLookup rest k

/-- Assignment d[k] = v: replaces the first binding of k in place, or
appends a new binding at the end, as a Python dict does. -/
def dictSet {β : Type} (d : PyDict β) (k : String) (v : β) : PyDict β :=
  match d with
  | [] => [(k, v)]
  | (k0, v0) :: rest => if k0 = k then (k, v) :: rest else (k0, v0) :: dictSet rest k v

/-- Membership test k in d for a Python dict. -/
def dictContains {β : Type} (d : PyDict β) (k : String) : Bool :=
  (dictLookup d k).isSome

/-- Keys of a dict in order. -/
def dictKeys {β : Type} (d : PyDict β) : List String :=
  d.map Prod.fst

/-- Values stored in the metadata dicts of this program: strings, integers
and the Python None value. -/
inductive MetaVal where
  | str (s : String)
  | int (n : Int)
  | pyNone
deriving DecidableEq, Repr

/-- Python truthiness of a metadata value: None, the empty string and the
integer zero are falsy. -/
def MetaVal.truthy : MetaVal → Bool
  | .str s => !(s = "")
  | .int n => !(n = 0)
  | .pyNone => false

/-- Python dict.get on a metadata dict: returns the None value when the key
is absent, mirroring that d.get(k) is None for a missing key. -/
def pyGet (d : PyDict MetaVal) (k : String) : MetaVal :=
  (dictLookup d k).getD .pyNone

/-- Python expression a or b on metadata values: a when truthy, else b. -/
def pyOrM (a b : MetaVal) : MetaVal :=
  if a.truthy then a else b

/- ## MD5 (hashlib.md5), the digest used by DocumentCache keys -/

/-- Round constants of MD5, floor(2^32 * abs(sin(i + 1))). -/
def md5K : List Nat :=
  [0xd76aa478, 0xe8c7b756, 0x242070db, 0xc1bdceee,
   0xf57c0faf, 0x4787c62a, 0xa8304613, 0xfd469501,
   0x698098d8, 0x8b44f7af, 0xffff5bb1, 0x895cd7be,
   0x6b901122, 0xfd987193, 0xa679438e, 0x49b40821,
   0xf61e2562, 0xc040b340, 0x265e5a51, 0xe9b6c7aa,
   0xd62f105d, 0x02441453, 0xd8a1e681, 0xe7d3fbc8,
   0x21e1cde6, 0xc33707d6, 0xf4d50d87, 0x455a14ed,
   0xa9e3e905, 0xfcefa3f8, 0x676f02d9, 0x8d2a4c8a,
   0xfffa3942, 0x8771f681, 0x6d9d6122, 0xfde5380c,
   0xa4beea44, 0x4bdecfa9, 0xf6bb4b60, 0xbebfbc70,
   0x289b7ec6, 0xeaa127fa, 0xd4ef3085, 0x04881d05,
   0xd9d4d039, 0xe6db99e5, 0x1fa27cf8, 0xc4ac5665,
   0xf4292244, 0x432aff97, 0xab9423a7, 0xfc93a039,
   0x655b59c3, 0x8f0ccc92, 0xffeff47d, 0x85845dd1,
   0x6fa87e4f, 0xfe2ce6e0, 0xa3014314, 0x4e0811a1,
   0xf7537e82, 0xbd3af235, 0x2ad7d2bb, 0xeb86d391]

/-- Per-round left-rotation amounts of MD5. -/
def md5S : List Nat :=
  [7, 12, 17, 22, 7, 12, 17, 22, 7, 12, 17, 22, 7, 12, 17, 22,
   5, 9, 14, 20, 5, 9, 14, 20, 5, 9, 14, 20, 5, 9, 14, 20,
   4, 11, 16, 23, 4, 11, 16, 23, 4, 11, 16, 23, 4, 11, 16, 23,
   6, 10, 15, 21, 6, 10, 15, 21, 6, 10, 15, 21, 6, 10, 15, 21]

/-- Addition modulo 2^32. -/
def wadd (a b : Nat) : Nat := (a + b) % 4294967296

/-- Bitwise complement within 32 bits, for arguments below 2^32. -/
def wnot (a : Nat) : Nat := 4294967295 - a

/-- Left rotation of a 32-bit word by n bits, 0 <= n < 32. -/
def rotl (x n : Nat) : Nat := ((x <<< n) % 4294967296) + (x >>> (32 - n))

/-- Nonlinear round function of MD5 at round i on words b, c, d. -/
def md5F (i b c d : Nat) : Nat :=
  if i < 16 then (b &&& c) ||| (wnot b &&& d)
  else if i < 32 then (d &&& b) ||| (wnot d &&& c)
  else if i < 48 then b ^^^ c ^^^ d
  else c ^^^ (b ||| wnot d)

/-- Message-word index of MD5 at round i. -/
def md5G (i : Nat) : Nat :=
  if i < 16 then i
  else if i < 32 then (5 * i + 1) % 16
  else if i < 48 then (3 * i + 5) % 16
  else (7 * i) % 16

/-- One round of the MD5 compression function on state (a, b, c, d) with
message words m. -/
def md5Step (m : List Nat) (st : Nat × Nat × Nat × Nat) (i : Nat) :
    Nat × Nat × Nat × Nat :=
  let a := st.1
  let b := st.2.1
  let c := st.2.2.1
  let d := st.2.2.2
  let f := wadd (wadd (md5F i b c d) a)
                (wadd ((md5K.get? i).getD 0) ((m.get? (md5G i)).getD 0))
  (d, wadd b (rotl f ((md5S.get? i).getD 0)), b, c)

/-- MD5 compression of one 16-word block into the running state. -/
def md5Block (st0 : Nat × Nat × Nat × Nat) (m : List Nat) :
    Nat × Nat × Nat × Nat :=
  let st := (List.range 64).foldl (md5Step m) st0
  (wadd st0.1 st.1, wadd st0.2.1 st.2.1,
   wadd st0.2.2.1 st.2.2.1, wadd st0.2.2.2 st.2.2.2)

/-- Little-endian byte serialization of x on n bytes. -/
def leBytes (n x : Nat) : List Nat :=
  (List.range n).map (fun i => (x >>> (8 * i)) % 256)

/-- MD5 padding: a 0x80 byte, zeros to 56 mod 64, then the bit length on
8 little-endian bytes. -/
def md5Pad (msg : List Nat) : List Nat :=
  let z := (120 - (msg.length + 1) % 64) % 64
  msg ++ 0x80 :: (List.replicate z 0 ++ leBytes 8 ((msg.length * 8) % 18446744073709551616))

/-- Recursor for chunkList; the fuel argument, set to the list length, makes
the recursion structural so that it reduces inside the kernel. -/
def chunkAux (n : Nat) : Nat → List Nat → List (List Nat)
  | _, [] => []
  | 0, _ :: _ => []
  | fuel + 1, c :: rest => (c :: rest).take n :: chunkAux n fuel ((c :: rest).drop n)

/-- Splitting a byte list into chunks of n bytes, n positive. -/
def chunkList (n : Nat) (l : List Nat) : List (List Nat) :=
  if n = 0 then [] else chunkAux n l.length l

/-- Little-endian decoding of a byte list into one word. -/
def leWord (bs : List Nat) : Nat :=
  bs.foldr (fun b acc => b + 256 * acc) 0

/-- The full MD5 digest of a byte string, as 16 bytes. -/
def md5Digest (msg : List Nat) : List Nat :=
  let blocks := (chunkList 64 (md5Pad msg)).map (fun b => (chunkList 4 b).map leWord)
  let st := blocks.foldl md5Block (0x67452301, 0xefcdab89, 0x98badcfe, 0x10325476)
  leBytes 4 st.1 ++ leBytes 4 st.2.1 ++ leBytes 4 st.2.2.1 ++ leBytes 4 st.2.2.2

/-- Lowercase hex digit for a value below 16. -/
def hexDigit (n : Nat) : Char :=
  if n < 10 then Char.ofNat (48 + n) else Char.ofNat (87 + n)

/-- Lowercase hex rendering of a byte list, as hexdigest() produces. -/
def bytesToHex (bs : List Nat) : String :=
  String.mk ((bs.map (fun b => [hexDigit (b / 16), hexDigit (b % 16)])).flatten)

/-- Hex digest of MD5 over a byte string, hashlib.md5(x).hexdigest(). -/
def md5hex (bs : List Nat) : String := bytesToHex (md5Digest bs)

/-- UTF-8 bytes of a single code point. -/
def utf8Bytes (c : Nat) : List Nat :=
  if c < 128 then [c]
  else if c < 2048 then [192 + c / 64, 128 + c % 64]
  else if c < 65536 then [224 + c / 4096, 128 + (c / 64) % 64, 128 + c % 64]
  else [240 + c / 262144, 128 + (c / 4096) % 64, 128 + (c / 64) % 64, 128 + c % 64]

/-- UTF-8 encoding of a string, str.encode() in Python. -/
def strBytes (s : String) : List Nat :=
  (s.data.map (fun ch => utf8Bytes ch.toNat)).flatten

/- ## document_cache.py: DocumentCache -/

/-- Entry of the document cache: the processed contents together with the
insertion timestamp, as the dict stored by add_document. -/
structure CacheEntry (α : Type) where
  contents : α
  timestamp : ℚ
deriving DecidableEq

/-- Cache for processed PDF documents, document_cache.py. Time is passed
explicitly to each operation in place of time.time(). -/
structure DocumentCache (α : Type) where
  ttl : ℚ
  cache : PyDict (CacheEntry α)
deriving DecidableEq

namespace DocumentCache

/-- Constructor of DocumentCache; the source default for ttl is 3600. -/
def init (α : Type) (ttl : ℚ) : DocumentCache α := ⟨ttl, []⟩

/-- Key computation of the cache: the MD5 hex digest of the UTF-8 encoding
of the file path string, hashlib.md5(file_path.encode()).hexdigest(). -/
def _get_key (file_path : String) : String := md5hex (strBytes file_path)

/-- Storing processed contents under the key derived from the path, stamped
with the current time. -/
def add_document {α : Type} (c : DocumentCache α) (now : ℚ) (file_path : String)
    (contents : α) : DocumentCache α :=
  { c with cache := dictSet c.cache (_get_key file_path) ⟨contents, now⟩ }

/-- Retrieval: the entry is returned only when present and strictly younger
than the TTL; otherwise None. -/
def get_document {α : Type} (c : DocumentCache α) (now : ℚ) (file_path : String) :
    Option α :=
  match dictLookup c.cache (_get_key file_path) with
  | some entry => if now - entry.timestamp < c.ttl then some entry.contents else none
  | none => none

/-- Maintenance sweep deleting entries whose age strictly exceeds the TTL. -/
def clear_expired {α : Type} (c : DocumentCache α) (now : ℚ) : DocumentCache α :=
  { c with cache := c.cache.filter (fun kv => decide (now - kv.2.timestamp ≤ c.ttl)) }

end DocumentCache

/- ## processing.py / basicModel.py: VectorStore over faiss.IndexFlatL2 -/

/-- Embedding vector. Integer coordinates stand for the float entries; the
structural claims about counts, ordering and alignment do not depend on the
numeric type. -/
abbrev Vec := List Int

/-- Squared L2 distance between two vectors of equal dimension, the score
faiss.IndexFlatL2 reports. -/
def sqDistL2 (u v : Vec) : Int :=
  ((u.zip v).map (fun p => (p.1 - p.2) * (p.1 - p.2))).sum

/-- Sentinel distance with which faiss pads result slots when the index
holds fewer than k vectors: the largest finite float32 value. -/
def fltMaxDist : Int := 340282346638528859811704183484516925440

/-- Ordering of faiss result slots: ascending distance, with the stored
index as a deterministic tie-break. -/
def distLex (a b : Int × Int) : Prop := a.1 < b.1 ∨ (a.1 = b.1 ∧ a.2 ≤ b.2)

instance : DecidableRel distLex := fun a b =>
  inferInstanceAs (Decidable (a.1 < b.1 ∨ (a.1 = b.1 ∧ a.2 ≤ b.2)))

instance : IsTotal (Int × Int) distLex where
  total a b := by
    by_cases h1 : a.1 < b.1
    · exact Or.inl (Or.inl h1)
    · by_cases h2 : b.1 < a.1
      · exact Or.inr (Or.inl h2)
      · have he : a.1 = b.1 := le_antisymm (not_lt.mp h2) (not_lt.mp h1)
        by_cases h3 : a.2 ≤ b.2
        · exact Or.inl (Or.inr ⟨he, h3⟩)
        · exact Or.inr (Or.inr ⟨he.symm, le_of_not_le h3⟩)

instance : IsTrans (Int × Int) distLex where
  trans a b c hab hbc := by
    rcases hab with h1 | ⟨he1, h2⟩ <;> rcases hbc with h3 | ⟨he3, h4⟩
    · exact Or.inl (lt_trans h1 h3)
    · exact Or.inl (he3 ▸ h1)
    · exact Or.inl (he1 ▸ h3)
    · exact Or.inr ⟨he1.trans he3, le_trans h2 h4⟩

/-- Scoring pass of faiss.IndexFlatL2: every stored vector is paired as
(distance to the query, stored index). -/
def faissScored (vectors : List Vec) (q : Vec) : List (Int × Int) :=
  vectors.enum.map (fun p => (sqDistL2 q p.2, (p.1 : Int)))

/-- Search of faiss.IndexFlatL2: every stored vector is scored against the
query (exact nearest neighbor), the slots are sorted ascending by distance,
the first k are returned as (distance, index) pairs, and when the index
holds fewer than k vectors the remaining of the k slots are padded with
index -1 and the sentinel distance. -/
def faissFlatSearch (vectors : List Vec) (q : Vec) (k : Nat) : List (Int × Int) :=
  (List.insertionSort distLex (faissScored vectors q)).take k
    ++ List.replicate (k - vectors.length) (fltMaxDist, -1)

/-- State of the VectorStore classes of processing.py and basicModel.py
(their bodies are identical): a faiss.IndexFlatL2 of fixed dimension plus a
parallel metadata list. -/
structure VectorStore (α : Type) where
  dim : Nat
  vectors : List Vec
  metadata : List α
deriving DecidableEq

namespace VectorStore

/-- Constructor: faiss.IndexFlatL2(384) with an empty metadata list. -/
def init (α : Type) : VectorStore α := ⟨384, [], []⟩

/-- Output of SentenceTransformer.encode, the external embedding model: a
single 1-D vector for one text, or a matrix of row vectors for a list. -/
inductive EncodeOut where
  | one (v : Vec)
  | many (rows : List Vec)

/-- Reshape step of add_document: a 1-D encoding becomes a one-row matrix,
a matrix stays as is. -/
def EncodeOut.rows : EncodeOut → List Vec
  | .one v => [v]
  | .many rs => rs

/-- Method add_document: the reshaped encoding is appended to the faiss
index, which requires every row to carry the configured dimension, and the
metadata list is extended with one copy of the metadata per appended row. -/
def add_document {α : Type} (s : VectorStore α) (enc : EncodeOut) (meta : α) :
    Except String (VectorStore α) :=
  if enc.rows.all (fun r => r.length = s.dim) then
    .ok { s with vectors := s.vectors ++ enc.rows,
                 metadata := s.metadata ++ List.replicate enc.rows.length meta }
  else .error "AssertionError: embedding dimension mismatch"

/-- Body of the list comprehension in search: each returned faiss slot is
resolved as metadata[idx] with Python indexing; a failed lookup raises
IndexError, aborting the whole comprehension. -/
def gatherResults {α : Type} (metadata : List α) :
    List (Int × Int) → Except String (List (α × Int))
  | [] => .ok []
  | p :: rest =>
      match pyIndex metadata p.2 with
      | some m => (gatherResults metadata rest).map (fun tl => (m, p.1) :: tl)
      | none => .error "IndexError: list index out of range"

/-- Method search: the query is embedded, faiss returns k slots of
distances and indices, and each slot is paired with metadata[idx]. -/
def search {α : Type} (encode : String → Vec) (s : VectorStore α) (query : String)
    (k : Nat) : Except String (List (α × Int)) :=
  gatherResults s.metadata (faissFlatSearch s.vectors (encode query) k)

/-- Invariant of the store: the metadata sequence and the embedding
sequence have the same length. -/
def aligned {α : Type} (s : VectorStore α) : Prop :=
  s.vectors.length = s.metadata.length

end VectorStore

/- ## processing.py: NotesGenerator -/

/-- Metadata dict attached to each indexed page by process_pdf_directory in
basicModel.py, the shape _build_context reads. -/
structure NoteMeta where
  doc_id : String
  filename : String
  page : Nat
  doc_text : String
deriving DecidableEq

/-- One call to the generation collaborator: the list of message parts
passed to chat.send_message on a fresh chat with empty history. -/
structure GenCall where
  parts : List String
deriving DecidableEq

/-- Rendering of the numeric relevance score inside the context block; it
stands for the two-decimal float formatting of the source. -/
def showScore (score : Int) : String := toString score

/-- Forty-dash separator line of the context block. -/
def dashes40 : String := String.mk (List.replicate 40 (Char.ofNat 45))

/-- State of NotesGenerator. The class attribute SYSTEM_PROMPT is the empty
string, and the constructor assigns its long prompt text to a local
variable rather than to self, so the instance attribute stays empty. -/
structure NotesGenerator where
  all_topics : String
  SYSTEM_PROMPT : String
deriving DecidableEq

namespace NotesGenerator

/-- Constructor of NotesGenerator, recording the full topic list string. -/
def init (all_topics : String) : NotesGenerator := ⟨all_topics, ""⟩

/-- Method _build_context: the retrieved passages are folded into one
context string listing document, page, content and score per passage. -/
def _build_context (relevant_passages : List (NoteMeta × Int)) : String :=
  relevant_passages.foldl
    (fun context p =>
      context ++ "\nDocument: " ++ p.1.filename ++ " (Page " ++ toString p.1.page
        ++ ")\n" ++ "Content: " ++ p.1.doc_text ++ "\n"
        ++ "Relevance Score: " ++ showScore p.2 ++ "\n" ++ dashes40)
    "RELEVANT PASSAGES:\n"

/-- Second message part of a generate_notes call: the topic, its retrieved
context, the strict-topic reminder naming all topics, and the base prompt. -/
def topicMessage (ng : NotesGenerator) (topic context base_prompt : String) : String :=
  "\n\nTOPIC: " ++ topic ++ "\n\n" ++ context ++ "\n\n" ++ "\n                "
    ++ "**IMPORTANT NOTE** : You are only given a small amount of topics because of limitations in number of tockens that can be sent at once. So remember to stick strictly to the topics\n"
    ++ "**ALL TOPICS THAT ARE TO BE COVERED AS A WHOLE BUT NOT CURRENTLY DISCLOSED TO YOU ARE : ** " ++ ng.all_topics ++ " \n\n"
    ++ "**THIS IS ONLY FOR YOUR REFERENCE FOR YOU TO BETTER STRUCTURE THE NOTES AND ENSURE THERE IS NO REPETATIONS OF ANY TOPICS**\n"
    ++ "**DONT ACTUALLY PROVIDE NOTES BASED ON THESE TOPICS AND ONLY GIVE THE ANSWER TO THE BASE PROMPT(even if it is present in all topics only answer the base prompt)\n"
    ++ "\n BASE PROMPT: " ++ base_prompt

/-- Method generate_notes: the loop body runs once per topic of the batch,
searching the store with k fixed to 10, building that topic context, and
issuing one chat.send_message call; the issued calls are returned in loop
order. The texts answered by the external generation collaborator are its
outputs, one per issued call, and a search failure propagates as the raised
exception. -/
def generate_notes (encode : String → Vec) (ng : NotesGenerator)
    (vector_store : VectorStore NoteMeta) (base_prompt : String) :
    List String → Except String (List GenCall)
  | [] => .ok []
  | topic :: rest =>
    match vector_store.search encode topic 10 with
    | .ok relevant_passages =>
        (generate_notes encode ng vector_store base_prompt rest).map
          (fun tl =>
            ⟨[ng.SYSTEM_PROMPT,
              ng.topicMessage topic (_build_context relevant_passages) base_prompt]⟩ :: tl)
    | .error e => .error e

end NotesGenerator

/- ## query.py: QueryBuilder -/

/-- Whitespace characters removed by Python str.strip(). -/
def isPySpace (c : Char) : Bool :=
  c == ' ' || c == Char.ofNat 9 || c == Char.ofNat 10 || c == Char.ofNat 13
    || c == Char.ofNat 11 || c == Char.ofNat 12

/-- Recursor for pySplit: the fuel argument, set to the input length, makes
the recursion structural; every step consumes at least one character. -/
def pySplitAux (sep : List Char) : Nat → List Char → List (List Char)
  | _, [] => [[]]
  | 0, rest => [rest]
  | fuel + 1, c :: rest =>
      if sep.isPrefixOf (c :: rest) then
        [] :: pySplitAux sep fuel ((c :: rest).drop sep.length)
      else
        match pySplitAux sep fuel rest with
        | [] => [[c]]
        | piece :: more => (c :: piece) :: more

/-- Python str.split(sep) for a non-empty separator: leftmost
non-overlapping occurrences of the separator cut the string. -/
def pySplit (sep : String) (s : String) : List String :=
  (pySplitAux sep.data s.data.length s.data).map String.mk

/-- Test of Python str.startswith for a single character. -/
def strStartsWithChar (s : String) (c : Char) : Bool :=
  match s.data with
  | [] => false
  | d :: _ => d == c

/-- Test of Python str.endswith for a single character. -/
def strEndsWithChar (s : String) (c : Char) : Bool :=
  match s.data.getLast? with
  | some d => d == c
  | none => false

/-- Python str.strip(): removes leading and trailing whitespace. -/
def pyStrip (s : String) : String :=
  String.mk (((s.data.dropWhile isPySpace).reverse.dropWhile isPySpace).reverse)

/-- Python str.strip(chars): removes leading and trailing characters drawn
from the given set. -/
def pyStripChars (set : List Char) (s : String) : String :=
  String.mk (((s.data.dropWhile set.contains).reverse.dropWhile set.contains).reverse)

/-- Characters of the strip argument in i.strip(of the word python). -/
def pythonChars : List Char := ['p', 'y', 't', 'h', 'o', 'n']

/-- The two Python quote characters. -/
def quoteChars : List Char := [Char.ofNat 39, Char.ofNat 34]

/-- Reads characters up to the closing quote q; none when the input ends
before the quote is found. -/
def takeUntilChar (q : Char) : List Char → Option (String × List Char)
  | [] => none
  | c :: rest =>
      if c == q then some ("", rest)
      else (takeUntilChar q rest).map (fun p => (String.mk (c :: p.1.data), p.2))

/-- Parses the body of a list literal after the opening bracket: quoted
string items separated by commas, an optional trailing comma, then the
closing bracket; returns the items and the rest of the input. -/
def parseListBody : Nat → List Char → Option (List String × List Char)
  | 0, _ => none
  | fuel + 1, l =>
    match l.dropWhile isPySpace with
    | [] => none
    | c :: rest =>
      if c == ']' then some ([], rest)
      else if quoteChars.contains c then
        match takeUntilChar c rest with
        | none => none
        | some (item, rest2) =>
          match rest2.dropWhile isPySpace with
          | c2 :: rest3 =>
            if c2 == ']' then some ([item], rest3)
            else if c2 == ',' then
              (parseListBody fuel rest3).map (fun p => (item :: p.1, p.2))
            else none
          | [] => none
      else none

/-- Modelled from ast.literal_eval, restricted to the output domain the
planner prompt demands: a Python list literal of quoted strings without
escape sequences. Returns none where literal_eval raises; surrounding
whitespace is tolerated as in CPython. -/
def literal_eval_list (s : String) : Option (List String) :=
  match s.data.dropWhile isPySpace with
  | c :: rest =>
      if c == '[' then
        match parseListBody (s.length + 1) rest with
        | some (items, rest2) =>
            if (rest2.dropWhile isPySpace).isEmpty then some items else none
        | none => none
      else none
  | [] => none

namespace QueryBuilder

/-- Value returned by convert_query: either the parsed query list, or the
sentinel string Invalid. -/
inductive ConvertResult where
  | parsed (l : List String)
  | invalid
deriving DecidableEq, Repr

/-- Loop body of convert_query for one piece of the triple-backtick split:
the piece is stripped of the characters p, y, t, h, o, n at both ends, and
when its whitespace-stripped form starts with an opening bracket and ends
with a closing bracket it is fed to literal_eval; a parse exception is
caught and the loop moves on. -/
def pieceParse (i : String) : Option (List String) :=
  let i := pyStripChars pythonChars i
  let t := pyStrip i
  if strStartsWithChar t '[' && strEndsWithChar t ']' then literal_eval_list i
  else none

/-- Separator of the code-block split. -/
def tripleBacktick : String := "```"

/-- Method convert_query: the response text is stripped, split on triple
backticks, and the first piece that passes pieceParse yields the parsed
list; if no piece parses, the sentinel string Invalid is returned. -/
def convert_query (text : String) : ConvertResult :=
  match (pySplit tripleBacktick (pyStrip text)).findSome? pieceParse with
  | some l => .parsed l
  | none => .invalid

/-- Method get_and_process_query: one generation call produces a response
text (the output of the external collaborator, taken here as the argument)
which is passed through convert_query, and the result is returned to the
caller unchanged; there is no exception path. -/
def get_and_process_query (responseText : String) : ConvertResult :=
  convert_query responseText

end QueryBuilder

/- ## retrieval.py: loading, splitting and the LangChain FAISS store -/

/-- LangChain document: page content plus a metadata dict. -/
structure Document where
  pageContent : String
  metadata : PyDict MetaVal
deriving DecidableEq

/-- Raw page produced by PyPDFLoader.load for one PDF file: the extracted
text and the metadata the external loader attaches (keys such as source,
page or page_number, depending on the loader version). -/
structure RawPage where
  text : String
  metadata : PyDict MetaVal
deriving DecidableEq

/-- One PDF file as seen by the directory walk of _load_case_pdfs: its path
and the pages the external loader extracts from it. -/
structure PdfFile where
  path : String
  pages : List RawPage
deriving DecidableEq

/-- os.path.basename for the POSIX paths this program uses. -/
def basename (p : String) : String :=
  ((pySplit "/" p).getLast?).getD p

/-- Filter of the directory walk, fn.lower().endswith of the pdf suffix. -/
def isPdfName (fn : String) : Bool :=
  (".pdf".data.reverse).isPrefixOf ((fn.data.map Char.toLower).reverse)

/-- Metadata transform of _load_case_pdfs on one loaded document: when the
page key is missing it is set to the page_number value (the None value when
that is also missing), then the source key is set to the basename of the
file path. -/
def loadMeta (path : String) (md : PyDict MetaVal) : PyDict MetaVal :=
  let md1 := if dictContains md "page" then md
             else dictSet md "page" (pyGet md "page_number")
  dictSet md1 "source" (.str (basename path))

/-- Function _load_case_pdfs: every file whose name has the pdf suffix
contributes one document per loaded page, with the metadata transform
applied; other files are skipped. -/
def _load_case_pdfs (files : List PdfFile) : List Document :=
  (files.map (fun f =>
    if isPdfName (basename f.path) then
      f.pages.map (fun pg => Document.mk pg.text (loadMeta f.path pg.metadata))
    else [])).flatten

/-- Function _split_docs over RecursiveCharacterTextSplitter: each document
is cut into chunks by the external splitting strategy (chunk size 1000,
overlap 150, passed here as the chunker), and every chunk carries a copy of
the parent document metadata. -/
def _split_docs (chunker : String → List String) (docs : List Document) :
    List Document :=
  (docs.map (fun d =>
    (chunker d.pageContent).map (fun t => Document.mk t d.metadata))).flatten

/-- LangChain FAISS vector store: the docstore documents aligned with their
embeddings. -/
structure FAISSStore where
  docs : List Document
  embs : List Vec
deriving DecidableEq

/-- FAISS.from_documents: embeds every chunk and stores documents and
embeddings aligned. -/
def FAISS.from_documents (encode : String → Vec) (chunks : List Document) :
    FAISSStore :=
  ⟨chunks, chunks.map (fun d => encode d.pageContent)⟩

/-- Function build_or_rebuild_index: loads the case PDFs, splits them,
raises when no chunk was produced, and otherwise builds the FAISS store. -/
def build_or_rebuild_index (encode : String → Vec) (chunker : String → List String)
    (case_dir : List PdfFile) : Except String FAISSStore :=
  if (_split_docs chunker (_load_case_pdfs case_dir)).isEmpty then
    .error "RuntimeError: No PDF content found"
  else
    .ok (FAISS.from_documents encode (_split_docs chunker (_load_case_pdfs case_dir)))

/-- Similarity search of the LangChain FAISS wrapper: the flat index
returns k slots, slots carrying the padding index -1 are skipped, and the
rest are resolved in the docstore. -/
def FAISSStore.similarity_search (store : FAISSStore) (qEmb : Vec) (k : Nat) :
    List Document :=
  (faissFlatSearch store.embs qEmb k).filterMap
    (fun p => if p.2 == -1 then none else store.docs.get? p.2.toNat)

/-- Retriever built by as_retriever and called through invoke: a similarity
search on the embedded query with the configured k. -/
def retrieverInvoke (encode : String → Vec) (store : FAISSStore) (k : Nat)
    (query : String) : List Document :=
  store.similarity_search (encode query) k

/- ## agents.py: AgentOrchestrator -/

/-- Citation dict appended for each retrieved document in answer. -/
structure Citation where
  filename : MetaVal
  page : MetaVal
  score : MetaVal
deriving DecidableEq

/-- Result dict of answer. -/
structure AnswerOut where
  session_id : Option String
  answer : String
  citations : List Citation
deriving DecidableEq

/-- Inputs dict handed to the agent executor: the user message and the user
document hint. -/
structure ExecInputs where
  input : String
  user_doc_hint : String
deriving DecidableEq

namespace AgentOrchestrator

/-- Method _make_user_doc_hint: empty for a missing or empty document text,
otherwise the text wrapped in user-document markers. -/
def _make_user_doc_hint (text : Option String) : String :=
  match text with
  | none => ""
  | some t =>
      if t = "" then ""
      else "<USER_DOCUMENT_BEGIN>\n" ++ t ++ "\n<USER_DOCUMENT_END>"

/-- Citation built from one retrieved document: source (or filename as the
fallback), page, and score, each looked up in the metadata dict with get. -/
def mkCitation (d : Document) : Citation :=
  ⟨pyOrM (pyGet d.metadata "source") (pyGet d.metadata "filename"),
   pyGet d.metadata "page", pyGet d.metadata "score"⟩

/-- Method answer: the retriever k is set to top_k, the executor (the
external tool-calling loop over the language model, passed here as a
function of the inputs) produces the output text, the retriever is then
re-invoked on the original user message, and the first top_k retrieved
documents become the citations. -/
def answer (encode : String → Vec) (store : FAISSStore)
    (executor : ExecInputs → String) (user_message : String)
    (session_id : Option String) (user_doc_text : Option String)
    (top_k : Nat) : AnswerOut :=
  let inputs : ExecInputs := ⟨user_message, _make_user_doc_hint user_doc_text⟩
  let out := executor inputs
  let retrieved := retrieverInvoke encode store top_k user_message
  { session_id := session_id,
    answer := out,
    citations := (retrieved.take top_k).map mkCitation }

end AgentOrchestrator

/- ## Api.py boot and retrieval.py index loading -/

/-- os.path.join for the relative POSIX paths used here. -/
def pathJoin (a b : String) : String := a ++ "/" ++ b

/-- Function load_vector_store_or_raise: when both persisted index files
exist the store is deserialized (load_local stands for the external FAISS
deserialization), otherwise FileNotFoundError is raised. The filesystem is
modelled by its path-existence predicate. -/
def load_vector_store_or_raise (fsExists : String → Bool)
    (load_local : String → FAISSStore) (index_dir : String) :
    Except String FAISSStore :=
  if fsExists (pathJoin index_dir "index.faiss")
      && fsExists (pathJoin index_dir "index.pkl") then
    .ok (load_local index_dir)
  else
    .error ("FAISS index not found in " ++ index_dir ++ ". Run build_index.py first.")

/-- State the module-level boot of Api.py produces when it succeeds: the
loaded vector store, from which the PDF processor and the agent are then
built. -/
structure BootState where
  vector_store : FAISSStore
deriving DecidableEq

/-- Module-level boot of Api.py: the GEMINI key is checked, then the
persisted index is loaded with load_vector_store_or_raise; either failure
propagates out of module initialization, so the serving process never
starts. No handler surrounds the load call. -/
def apiBoot (fsExists : String → Bool) (load_local : String → FAISSStore)
    (gemini_api_key index_dir : String) : Except String BootState :=
  if gemini_api_key = "" then .error "RuntimeError: GEMINI_API_KEY is required"
  else (load_vector_store_or_raise fsExists load_local index_dir).map
    (fun vs => ⟨vs⟩)

/- ## Helper lemmas on the Python dict model -/

theorem dictLookup_dictSet_self {β : Type} (d : PyDict β) (k : String) (v : β) :
    dictLookup (dictSet d k v) k = some v := by
  induction d with
  | nil => simp [dictSet, dictLookup]
  | cons hd tl ih =>
      by_cases h : hd.1 = k
      · simp [dictSet, dictLookup, h]
      · simp [dictSet, dictLookup, h, ih]

theorem dictLookup_dictSet_ne {β : Type} (d : PyDict β) (k k2 : String) (v : β)
    (h : k2 ≠ k) : dictLookup (dictSet d k v) k2 = dictLookup d k2 := by
  have h2 : ¬ k = k2 := fun hc => h hc.symm
  induction d with
  | nil => simp [dictSet, dictLookup, h2]
  | cons hd tl ih =>
      by_cases hh : hd.1 = k
      · subst hh
        simp [dictSet, dictLookup, h2]
      · simp only [dictSet, if_neg hh]
        by_cases hk2 : hd.1 = k2
        · simp [dictLookup, hk2]
        · simp [dictLookup, hk2, ih]

theorem dictSet_dictSet_self {β : Type} (d : PyDict β) (k : String) (v w : β) :
    dictSet (dictSet d k v) k w = dictSet d k w := by
  induction d with
  | nil => simp [dictSet]
  | cons hd tl ih =>
      by_cases h : hd.1 = k
      · simp [dictSet, h]
      · simp [dictSet, h, ih]

theorem findSome?_eq_none_of_all {α β : Type} (f : α → Option β) (l : List α)
    (h : ∀ a ∈ l, f a = none) : l.findSome? f = none := by
  induction l with
  | nil => rfl
  | cons hd tl ih =>
      rw [List.findSome?_cons, h hd (List.mem_cons_self hd tl)]
      exact ih (fun a ha => h a (List.mem_cons_of_mem hd ha))

/- ## Claim C8: cache TTL boundary -/

/-- Claim C8: an entry inserted at time T with time-to-live TTL is returned
by a get at time T + TTL - eps for every eps > 0, and is treated as expired
(absent) by a get at time T + TTL + eps, purely on read, with no sweep
having run in between. -/
theorem c8_cache_ttl_boundary {α : Type} (c : DocumentCache α) (T eps : ℚ)
    (path : String) (contents : α) (heps : 0 < eps) :
    (c.add_document T path contents).get_document (T + c.ttl - eps) path
        = some contents ∧
    (c.add_document T path contents).get_document (T + c.ttl + eps) path
        = none := by
  unfold DocumentCache.add_document DocumentCache.get_document
  simp only [dictLookup_dictSet_self]
  constructor
  · rw [if_pos (by linarith)]
  · rw [if_neg (by linarith)]

/-- Witness for C8 at a concrete cache, time and epsilon. -/
theorem c8_cache_ttl_boundary_witness :
    (0 : ℚ) < 1 ∧
    (((DocumentCache.init Nat 3600).add_document 0 "doc.pdf" 5).get_document
        (0 + (3600 : ℚ) - 1) "doc.pdf" = some 5 ∧
      ((DocumentCache.init Nat 3600).add_document 0 "doc.pdf" 5).get_document
        (0 + (3600 : ℚ) + 1) "doc.pdf" = none) :=
  ⟨by norm_num,
   c8_cache_ttl_boundary (DocumentCache.init Nat 3600) 0 1 "doc.pdf" 5 (by norm_num)⟩

/- ## Claim C4: the cache key digests the path, not the bytes -/

set_option maxRecDepth 8192 in
/-- Counterexample to claim C4: the paths a.pdf and b.pdf hold
byte-identical contents, yet _get_key computes different keys for them, and
a document cached under the first path is not found under the second. The
key is the MD5 digest of the path string, not of the raw file bytes. -/
theorem c4_content_key_cex :
    DocumentCache._get_key "a.pdf" ≠ DocumentCache._get_key "b.pdf" ∧
    ((DocumentCache.init (List String) 3600).add_document 0 "a.pdf"
        ["Patient has elevated glucose."]).get_document 0 "b.pdf" = none := by
  constructor
  · decide
  · decide

/-- Claim C4 amended: the cache key is a deterministic digest of the file
path string alone, independent of the document bytes: a second store under
the same path always computes the same key and therefore hits (overwrites)
the first entry, whatever the two contents are; byte-identical documents
stored under different paths are keyed independently. -/
theorem c4_key_is_path_digest {α : Type} (c : DocumentCache α) (t1 t2 : ℚ)
    (path : String) (c1 c2 : α) :
    (c.add_document t1 path c1).add_document t2 path c2
      = c.add_document t2 path c2 := by
  unfold DocumentCache.add_document
  simp [dictSet_dictSet_self]

/- ## Claim C9: missing index files are fatal at boot -/

/-- Claim C9: when either persisted index file is absent at load time,
load_vector_store_or_raise raises FileNotFoundError, and the module-level
boot of Api.py propagates it, so the serving process does not start; no
handler turns it into a recoverable runtime error. -/
theorem c9_boot_fatal_when_index_missing (fsExists : String → Bool)
    (load_local : String → FAISSStore) (gemini_api_key index_dir : String)
    (hkey : gemini_api_key ≠ "")
    (hmiss : fsExists (pathJoin index_dir "index.faiss") = false ∨
             fsExists (pathJoin index_dir "index.pkl") = false) :
    load_vector_store_or_raise fsExists load_local index_dir
      = .error ("FAISS index not found in " ++ index_dir
          ++ ". Run build_index.py first.") ∧
    apiBoot fsExists load_local gemini_api_key index_dir
      = .error ("FAISS index not found in " ++ index_dir
          ++ ". Run build_index.py first.") := by
  have hload : load_vector_store_or_raise fsExists load_local index_dir
      = .error ("FAISS index not found in " ++ index_dir
          ++ ". Run build_index.py first.") := by
    unfold load_vector_store_or_raise
    rcases hmiss with h | h <;> simp [h]
  refine ⟨hload, ?_⟩
  unfold apiBoot
  rw [if_neg hkey, hload]
  rfl

/-- Witness for C9 on a filesystem holding neither index file. -/
theorem c9_boot_fatal_witness :
    ("key" ≠ "" ∧
      ((fun (_ : String) => false) (pathJoin "./index" "index.faiss") = false ∨
        (fun (_ : String) => false) (pathJoin "./index" "index.pkl") = false)) ∧
    (load_vector_store_or_raise (fun _ => false) (fun _ => ⟨[], []⟩) "./index"
        = .error ("FAISS index not found in " ++ "./index"
            ++ ". Run build_index.py first.") ∧
      apiBoot (fun _ => false) (fun _ => ⟨[], []⟩) "key" "./index"
        = .error ("FAISS index not found in " ++ "./index"
            ++ ". Run build_index.py first.")) :=
  ⟨⟨by decide, Or.inl rfl⟩,
   c9_boot_fatal_when_index_missing (fun _ => false) (fun _ => ⟨[], []⟩)
     "key" "./index" (by decide) (Or.inl rfl)⟩

/- ## Claim C5: unparseable plan output yields the sentinel Invalid -/

/-- Counterexample to claim C5: a generation output with no parseable list
literal does not fail with a PlanningError (no such error exists anywhere
in the program); convert_query returns the sentinel value Invalid, which
get_and_process_query hands to its caller as a normal return value.
Moreover the example named by the claim, a fenced code block with a
language tag, is in fact parsed successfully, because str.strip removes
the characters of the word python from the ends of the piece. -/
theorem c5_planning_error_cex :
    QueryBuilder.get_and_process_query "I cannot produce queries for this topic."
      = QueryBuilder.ConvertResult.invalid ∧
    QueryBuilder.convert_query "```python\n[\"query one\"]\n```"
      = QueryBuilder.ConvertResult.parsed ["query one"] := by
  constructor
  · rfl
  · rfl

/-- Claim C5 amended: whenever no piece of the triple-backtick split of the
stripped generation output parses as a list literal, the query-expansion
call returns the sentinel value Invalid to its caller instead of raising
any error. -/
theorem c5_unparseable_returns_invalid (text : String)
    (h : ∀ i ∈ pySplit QueryBuilder.tripleBacktick (pyStrip text),
        QueryBuilder.pieceParse i = none) :
    QueryBuilder.get_and_process_query text
      = QueryBuilder.ConvertResult.invalid := by
  unfold QueryBuilder.get_and_process_query QueryBuilder.convert_query
  rw [findSome?_eq_none_of_all _ _ h]

/-- Witness for C5 at a concrete unparseable response. -/
theorem c5_unparseable_returns_invalid_witness :
    (∀ i ∈ pySplit QueryBuilder.tripleBacktick (pyStrip "no queries"),
        QueryBuilder.pieceParse i = none) ∧
    QueryBuilder.get_and_process_query "no queries"
      = QueryBuilder.ConvertResult.invalid :=
  ⟨by decide, c5_unparseable_returns_invalid "no queries" (by decide)⟩

/- ## Claim C1: citations are bounded and come from the original query -/

/-- Claim C1: for every call to answer, the returned citations list has at
most top_k entries, and every citation is built from a document returned by
the retriever invoked on the original user message, not on any
intermediate tool query of the executor. -/
theorem c1_answer_citations (encode : String → Vec) (store : FAISSStore)
    (executor : ExecInputs → String) (user_message : String)
    (session_id : Option String) (user_doc_text : Option String) (top_k : Nat) :
    (AgentOrchestrator.answer encode store executor user_message session_id
        user_doc_text top_k).citations.length ≤ top_k ∧
    ∀ c ∈ (AgentOrchestrator.answer encode store executor user_message
        session_id user_doc_text top_k).citations,
      ∃ d ∈ retrieverInvoke encode store top_k user_message,
        c = AgentOrchestrator.mkCitation d := by
  constructor
  · show (List.map _ (List.take top_k _)).length ≤ top_k
    rw [List.length_map, List.length_take]
    exact min_le_left _ _
  · intro c hc
    have hc2 : c ∈ (List.take top_k
        (retrieverInvoke encode store top_k user_message)).map
          AgentOrchestrator.mkCitation := hc
    simp only [List.mem_map] at hc2
    obtain ⟨d, hd, rfl⟩ := hc2
    exact ⟨d, List.mem_of_mem_take hd, rfl⟩

/- ## Claim C3: search on an empty index raises, it does not return [] -/

/-- Counterexample to claim C3: search on the freshly initialized empty
store with the default k = 5 raises IndexError instead of returning an
empty sequence: faiss pads all five slots with index -1, and the metadata
lookup at index -1 fails on the empty metadata list. -/
theorem c3_search_empty_raises_cex :
    VectorStore.search (fun _ => List.replicate 384 0) (VectorStore.init Nat)
      "any query" 5 = .error "IndexError: list index out of range" := rfl

/-- Claim C3 amended: for every positive k, search on an empty index raises
IndexError rather than returning an empty sequence; only k = 0 would yield
an empty result. -/
theorem c3_search_empty_raises {α : Type} (encode : String → Vec) (q : String)
    (k : Nat) (hk : 1 ≤ k) :
    VectorStore.search encode (VectorStore.init α) q k
      = .error "IndexError: list index out of range" := by
  obtain ⟨m, rfl⟩ : ∃ m, k = m + 1 := ⟨k - 1, by omega⟩
  show VectorStore.gatherResults [] (faissFlatSearch [] (encode q) (m + 1))
      = .error "IndexError: list index out of range"
  have hslots : faissFlatSearch [] (encode q) (m + 1)
      = (fltMaxDist, -1) :: List.replicate m (fltMaxDist, -1) := by
    unfold faissFlatSearch
    simp [List.insertionSort, List.replicate_succ]
  rw [hslots]
  unfold VectorStore.gatherResults
  have hnone : pyIndex ([] : List α) (-1) = none := by
    unfold pyIndex
    norm_num
  rw [hnone]

/-- Witness for C3 at the default k of the source. -/
theorem c3_search_empty_raises_witness :
    1 ≤ 5 ∧
    VectorStore.search (fun _ => []) (VectorStore.init String) "q" 5
      = .error "IndexError: list index out of range" :=
  ⟨by decide, c3_search_empty_raises (fun _ => []) "q" 5 (by decide)⟩

/- ## Claim C6: one generation call per topic, not one per batch -/

/-- Store used by the C6 counterexample and witness: one indexed page. -/
def c6Store : VectorStore NoteMeta :=
  ⟨384, [List.replicate 384 0],
   [⟨"d1", "case.pdf", 1, "Patient has elevated glucose."⟩]⟩

/-- Counterexample to claim C6: for a batch of two topics, generate_notes
issues two generation calls, one per topic, not a single call for the
whole batch. -/
theorem c6_single_batch_call_cex :
    (NotesGenerator.generate_notes (fun _ => List.replicate 384 0)
        (NotesGenerator.init "Topic A, Topic B") c6Store "Explain in depth"
        ["Topic A", "Topic B"]).map List.length = .ok 2 ∧ (2 : Nat) ≠ 1 :=
  ⟨rfl, by decide⟩

/-- Claim C6 amended: generate_notes issues exactly one generation call per
topic of the batch, len(topics) calls in total, each call carrying the
instance system prompt and a message built from that topic and its own
retrieved passage contexts; there is no single batch-wide call. -/
theorem c6_one_call_per_topic (encode : String → Vec) (ng : NotesGenerator)
    (store : VectorStore NoteMeta) (base_prompt : String)
    (topics : List String) (calls : List GenCall)
    (h : NotesGenerator.generate_notes encode ng store base_prompt topics
        = .ok calls) :
    calls.length = topics.length := by
  induction topics generalizing calls with
  | nil =>
      unfold NotesGenerator.generate_notes at h
      cases h
      rfl
  | cons t rest ih =>
      unfold NotesGenerator.generate_notes at h
      cases hs : store.search encode t 10 with
      | error e => rw [hs] at h; cases h
      | ok ps =>
          rw [hs] at h
          cases hr : NotesGenerator.generate_notes encode ng store base_prompt
              rest with
          | error e => rw [hr] at h; cases h
          | ok tl =>
              rw [hr] at h
              cases h
              simp [ih tl hr]

/-- Witness for C6 at a concrete one-topic batch. -/
theorem c6_one_call_per_topic_witness :
    (NotesGenerator.generate_notes (fun _ => List.replicate 384 0)
        (NotesGenerator.init "Topic A") c6Store "Explain in depth" ["Topic A"]
        = .ok ((NotesGenerator.generate_notes (fun _ => List.replicate 384 0)
            (NotesGenerator.init "Topic A") c6Store "Explain in depth"
            ["Topic A"]).toOption.getD [])) ∧
    ((NotesGenerator.generate_notes (fun _ => List.replicate 384 0)
        (NotesGenerator.init "Topic A") c6Store "Explain in depth"
        ["Topic A"]).toOption.getD []).length = 1 :=
  ⟨by rfl,
   c6_one_call_per_topic (fun _ => List.replicate 384 0)
     (NotesGenerator.init "Topic A") c6Store "Explain in depth" ["Topic A"]
     ((NotesGenerator.generate_notes (fun _ => List.replicate 384 0)
         (NotesGenerator.init "Topic A") c6Store "Explain in depth"
         ["Topic A"]).toOption.getD [])
     (by rfl)⟩

/- ## Claim C7: metadata and embeddings stay aligned under add_document -/

/-- Claim C7: the store starts aligned, and every successful add_document
preserves the invariant: the appended rows land at the end of the vector
sequence while equally many copies of the given metadata land at the end of
the metadata sequence, so both sequences keep the same length and the i-th
metadata record keeps describing the i-th embedding. -/
theorem c7_add_document_alignment {α : Type} (s s2 : VectorStore α)
    (enc : VectorStore.EncodeOut) (meta : α)
    (hal : s.aligned) (h : s.add_document enc meta = .ok s2) :
    (VectorStore.init α).aligned ∧
    s2.aligned ∧
    s2.vectors = s.vectors ++ enc.rows ∧
    s2.metadata = s.metadata ++ List.replicate enc.rows.length meta := by
  unfold VectorStore.add_document at h
  split at h
  · cases h
    refine ⟨rfl, ?_, rfl, rfl⟩
    unfold VectorStore.aligned at hal ⊢
    simp [hal]
  · cases h

/- ## Claim C10: no score key is ever written into document metadata -/

theorem loadMeta_no_score (path : String) (md : PyDict MetaVal)
    (h : dictLookup md "score" = none) :
    dictLookup (loadMeta path md) "score" = none := by
  unfold loadMeta
  by_cases hc : dictContains md "page"
  · rw [if_pos hc, dictLookup_dictSet_ne _ "source" "score" _ (by decide)]
    exact h
  · rw [if_neg hc, dictLookup_dictSet_ne _ "source" "score" _ (by decide),
        dictLookup_dictSet_ne _ "page" "score" _ (by decide)]
    exact h

theorem load_case_pdfs_no_score (files : List PdfFile)
    (hraw : ∀ f ∈ files, ∀ pg ∈ f.pages, dictLookup pg.metadata "score" = none) :
    ∀ d ∈ _load_case_pdfs files, dictLookup d.metadata "score" = none := by
  intro d hd
  unfold _load_case_pdfs at hd
  rw [List.mem_flatten] at hd
  obtain ⟨l, hl, hdl⟩ := hd
  rw [List.mem_map] at hl
  obtain ⟨f, hf, rfl⟩ := hl
  by_cases hp : isPdfName (basename f.path)
  · rw [if_pos hp, List.mem_map] at hdl
    obtain ⟨pg, hpg, rfl⟩ := hdl
    exact loadMeta_no_score _ _ (hraw f hf pg hpg)
  · rw [if_neg hp] at hdl
    exact absurd hdl (List.not_mem_nil d)

theorem split_docs_metadata (chunker : String → List String)
    (docs : List Document) :
    ∀ d ∈ _split_docs chunker docs, ∃ d0 ∈ docs, d.metadata = d0.metadata := by
  intro d hd
  unfold _split_docs at hd
  rw [List.mem_flatten] at hd
  obtain ⟨l, hl, hdl⟩ := hd
  rw [List.mem_map] at hl
  obtain ⟨d0, hd0, rfl⟩ := hl
  rw [List.mem_map] at hdl
  obtain ⟨t, _, rfl⟩ := hdl
  exact ⟨d0, hd0, rfl⟩

theorem similarity_search_subset (store : FAISSStore) (qEmb : Vec) (k : Nat) :
    ∀ d ∈ store.similarity_search qEmb k, d ∈ store.docs := by
  intro d hd
  unfold FAISSStore.similarity_search at hd
  rw [List.mem_filterMap] at hd
  obtain ⟨p, _, hres⟩ := hd
  by_cases h1 : p.2 == -1
  · rw [if_pos h1] at hres
    cases hres
  · rw [if_neg h1] at hres
    exact List.get?_mem hres

/-- Claim C10: the loader transform of _load_case_pdfs writes only the page
and source keys, the splitter copies metadata unchanged, and answer reads
score with dict.get; hence when the raw pages coming from the external PDF
loader carry no score key, the score field of every returned citation is
the None value. -/
theorem c10_citation_score_none (encode : String → Vec)
    (chunker : String → List String) (executor : ExecInputs → String)
    (files : List PdfFile) (user_message : String) (session_id : Option String)
    (user_doc_text : Option String) (top_k : Nat) (store : FAISSStore)
    (hbuild : build_or_rebuild_index encode chunker files = .ok store)
    (hraw : ∀ f ∈ files, ∀ pg ∈ f.pages, dictLookup pg.metadata "score" = none) :
    ∀ c ∈ (AgentOrchestrator.answer encode store executor user_message
        session_id user_doc_text top_k).citations,
      c.score = MetaVal.pyNone := by
  have hdocs : store.docs = _split_docs chunker (_load_case_pdfs files) := by
    unfold build_or_rebuild_index at hbuild
    split at hbuild
    · cases hbuild
    · cases hbuild
      rfl
  intro c hc
  have hc2 : c ∈ (List.take top_k
      (retrieverInvoke encode store top_k user_message)).map
        AgentOrchestrator.mkCitation := hc
  rw [List.mem_map] at hc2
  obtain ⟨d, hd, rfl⟩ := hc2
  have hmem : d ∈ store.docs :=
    similarity_search_subset store (encode user_message) top_k d
      (List.mem_of_mem_take hd)
  rw [hdocs] at hmem
  obtain ⟨d0, hd0, hmeta⟩ :=
    split_docs_metadata chunker (_load_case_pdfs files) d hmem
  have hscore := load_case_pdfs_no_score files hraw d0 hd0
  show pyGet d.metadata "score" = MetaVal.pyNone
  unfold pyGet
  rw [hmeta, hscore]
  rfl

/-- File used by the C10 witness: one page with loader metadata holding
only a page key. -/
def c10File : PdfFile :=
  ⟨"cases/a.pdf", [⟨"Patient has elevated glucose.", [("page", .int 0)]⟩]⟩

/-- Store the C10 witness builds from that file. -/
def c10Store : FAISSStore :=
  ⟨[⟨"Patient has elevated glucose.",
     [("page", .int 0), ("source", .str "a.pdf")]⟩], [[1]]⟩

/-- Witness for C10 at a concrete one-file corpus. -/
theorem c10_citation_score_none_witness :
    (build_or_rebuild_index (fun _ => [1]) (fun t => [t]) [c10File]
        = .ok c10Store ∧
      ∀ f ∈ [c10File], ∀ pg ∈ f.pages,
        dictLookup pg.metadata "score" = none) ∧
    ∀ c ∈ (AgentOrchestrator.answer (fun _ => [1]) c10Store (fun _ => "answer")
        "What is the glucose level?" (some "s1") none 1).citations,
      c.score = MetaVal.pyNone :=
  ⟨⟨by rfl, by decide⟩,
   c10_citation_score_none (fun _ => [1]) (fun t => [t]) (fun _ => "answer")
     [c10File] "What is the glucose level?" (some "s1") none 1 c10Store (by rfl)
     (by decide)⟩

set_option maxRecDepth 8192 in
/-- Witness for C7: one successful add on the fresh store. -/
theorem c7_add_document_alignment_witness :
    ((VectorStore.init Nat).aligned ∧
      VectorStore.add_document (VectorStore.init Nat)
          (.one (List.replicate 384 0)) 3
        = .ok ⟨384, [List.replicate 384 0], [3]⟩) ∧
    ((VectorStore.init Nat).aligned ∧
      (⟨384, [List.replicate 384 0], [3]⟩ : VectorStore Nat).aligned ∧
      (⟨384, [List.replicate 384 0], [3]⟩ : VectorStore Nat).vectors
        = (VectorStore.init Nat).vectors
            ++ (VectorStore.EncodeOut.one (List.replicate 384 0)).rows ∧
      (⟨384, [List.replicate 384 0], [3]⟩ : VectorStore Nat).metadata
        = (VectorStore.init Nat).metadata
            ++ List.replicate
                (VectorStore.EncodeOut.one (List.replicate 384 0)).rows.length 3) :=
  ⟨⟨rfl, rfl⟩,
   c7_add_document_alignment (VectorStore.init Nat) ⟨384, [List.replicate 384 0], [3]⟩
     (.one (List.replicate 384 0)) 3 rfl rfl⟩

/- ## Claim C2: search returns k padded slots, not min(k, n) -/

theorem pyIndex_ofNat {α : Type} (l : List α) (i : Nat) :
    pyIndex l (i : Int) = l.get? i := by
  unfold pyIndex
  rw [if_pos (Int.natCast_nonneg i)]
  simp

theorem pyIndex_neg_one {α : Type} (l : List α) (h : l ≠ []) :
    pyIndex l (-1) = l.getLast? := by
  unfold pyIndex
  have hlen : 0 < l.length := List.length_pos.mpr h
  rw [if_neg (by norm_num), if_pos (by omega)]
  have ht : ((l.length : Int) + (-1)).toNat = l.length - 1 := by omega
  rw [ht, List.get?_eq_getElem?]
  exact (List.getLast?_eq_getElem? l).symm

theorem gatherResults_eq {α : Type} (metadata : List α)
    (slots : List (Int × Int)) (f : Int × Int → α)
    (h : ∀ p ∈ slots, pyIndex metadata p.2 = some (f p)) :
    VectorStore.gatherResults metadata slots
      = .ok (slots.map (fun p => (f p, p.1))) := by
  induction slots with
  | nil => rfl
  | cons p rest ih =>
      unfold VectorStore.gatherResults
      rw [h p (List.mem_cons_self p rest),
          ih (fun a ha => h a (List.mem_cons_of_mem p ha))]
      rfl

theorem faissScored_length (vectors : List Vec) (q : Vec) :
    (faissScored vectors q).length = vectors.length := by
  unfold faissScored
  rw [List.length_map, List.enum_length]

theorem mem_faissScored (vectors : List Vec) (q : Vec) (p : Int × Int)
    (hp : p ∈ faissScored vectors q) :
    ∃ i v, vectors.get? i = some v ∧ p = (sqDistL2 q v, (i : Int)) := by
  unfold faissScored at hp
  rw [List.mem_map] at hp
  obtain ⟨e, he, rfl⟩ := hp
  exact ⟨e.1, e.2, List.mem_enum_iff_get?.mp he, rfl⟩

/-- Claim C2 amended: on an index holding at least one vector, search
returns exactly k result pairs, not min(k, n): the first min(k, n) pairs
match stored metadata records with their distances to the query, sorted by
non-decreasing distance, and the remaining k - min(k, n) pairs are faiss
padding slots whose index -1 is resolved by Python negative indexing to the
last stored metadata record, paired with the sentinel maximal distance. -/
theorem c2_search_returns_k_padded {α : Type} (encode : String → Vec)
    (s : VectorStore α) (q : String) (k : Nat)
    (hne : s.vectors ≠ []) (hal : s.aligned) :
    ∃ res, s.search encode q k = .ok res ∧
      res.length = k ∧
      List.Pairwise (fun x y => x.2 ≤ y.2)
        (res.take (min k s.vectors.length)) ∧
      (∀ pr ∈ res.take (min k s.vectors.length), ∃ i v m,
          s.vectors.get? i = some v ∧ s.metadata.get? i = some m ∧
          pr = (m, sqDistL2 (encode q) v)) ∧
      (∃ mlast, s.metadata.getLast? = some mlast ∧
        res.drop (min k s.vectors.length)
          = List.replicate (k - min k s.vectors.length) (mlast, fltMaxDist)) := by
  have hmetne : s.metadata ≠ [] := by
    intro hc
    apply hne
    unfold VectorStore.aligned at hal
    rw [hc] at hal
    simp only [List.length_nil] at hal
    exact List.length_eq_zero.mp hal
  obtain ⟨mlast, hmlast⟩ : ∃ mlast, s.metadata.getLast? = some mlast :=
    Option.isSome_iff_exists.mp (List.getLast?_isSome.mpr hmetne)
  have hmltlen : ∀ {i : Nat}, i < s.vectors.length → i < s.metadata.length := by
    intro i hi
    unfold VectorStore.aligned at hal
    omega
  have hresolve : ∀ p ∈ faissFlatSearch s.vectors (encode q) k,
      pyIndex s.metadata p.2
        = some ((pyIndex s.metadata p.2).getD mlast) := by
    intro p hp
    unfold faissFlatSearch at hp
    rw [List.mem_append] at hp
    rcases hp with hp | hp
    · obtain ⟨i, v, hget, rfl⟩ :=
        mem_faissScored s.vectors (encode q) p
          ((List.mem_insertionSort distLex).mp (List.mem_of_mem_take hp))
      obtain ⟨m, hm⟩ : ∃ m, s.metadata.get? i = some m :=
        ⟨_, List.get?_eq_get (hmltlen (List.get?_eq_some.mp hget).1)⟩
      show pyIndex s.metadata ((i : Nat) : Int) = _
      rw [pyIndex_ofNat, hm]
      rfl
    · have hpad : p = (fltMaxDist, -1) := List.eq_of_mem_replicate hp
      subst hpad
      show pyIndex s.metadata (-1) = _
      rw [pyIndex_neg_one s.metadata hmetne, hmlast]
      rfl
  have hgather := gatherResults_eq s.metadata
      (faissFlatSearch s.vectors (encode q) k)
      (fun p => (pyIndex s.metadata p.2).getD mlast) hresolve
  have hlen1 : (((List.insertionSort distLex
      (faissScored s.vectors (encode q))).take k).map
        (fun p => ((pyIndex s.metadata p.2).getD mlast, p.1))).length
      = min k s.vectors.length := by
    rw [List.length_map, List.length_take, List.length_insertionSort,
        faissScored_length]
  have htake : ((faissFlatSearch s.vectors (encode q) k).map
        (fun p => ((pyIndex s.metadata p.2).getD mlast, p.1))).take
        (min k s.vectors.length)
      = ((List.insertionSort distLex
          (faissScored s.vectors (encode q))).take k).map
          (fun p => ((pyIndex s.metadata p.2).getD mlast, p.1)) := by
    unfold faissFlatSearch
    rw [List.map_append, ← hlen1, List.take_left]
  have hdrop : ((faissFlatSearch s.vectors (encode q) k).map
        (fun p => ((pyIndex s.metadata p.2).getD mlast, p.1))).drop
        (min k s.vectors.length)
      = (List.replicate (k - s.vectors.length)
          ((fltMaxDist, -1) : Int × Int)).map
          (fun p => ((pyIndex s.metadata p.2).getD mlast, p.1)) := by
    unfold faissFlatSearch
    rw [List.map_append, ← hlen1, List.drop_left]
  refine ⟨_, hgather, ?_, ?_, ?_, ⟨mlast, hmlast, ?_⟩⟩
  · rw [List.length_map]
    unfold faissFlatSearch
    rw [List.length_append, List.length_take, List.length_replicate,
        List.length_insertionSort, faissScored_length]
    omega
  · rw [htake, List.pairwise_map]
    have hsorted : List.Pairwise distLex
        (List.insertionSort distLex (faissScored s.vectors (encode q))) :=
      List.sorted_insertionSort distLex (faissScored s.vectors (encode q))
    have hsub : List.Pairwise distLex
        ((List.insertionSort distLex (faissScored s.vectors (encode q))).take k) :=
      hsorted.sublist (List.take_sublist k _)
    refine hsub.imp ?_
    intro a b hab
    show a.1 ≤ b.1
    rcases hab with h1 | ⟨h1, _⟩
    · exact le_of_lt h1
    · exact le_of_eq h1
  · intro pr hpr
    rw [htake, List.mem_map] at hpr
    obtain ⟨p, hp, rfl⟩ := hpr
    obtain ⟨i, v, hget, rfl⟩ :=
      mem_faissScored s.vectors (encode q) p
        ((List.mem_insertionSort distLex).mp (List.mem_of_mem_take hp))
    obtain ⟨m, hm⟩ : ∃ m, s.metadata.get? i = some m :=
      ⟨_, List.get?_eq_get (hmltlen (List.get?_eq_some.mp hget).1)⟩
    refine ⟨i, v, m, hget, hm, ?_⟩
    show ((pyIndex s.metadata ((i : Nat) : Int)).getD mlast, sqDistL2 (encode q) v)
        = (m, sqDistL2 (encode q) v)
    rw [pyIndex_ofNat, hm]
    rfl
  · rw [hdrop, List.map_replicate]
    have hgpad : ((pyIndex s.metadata ((fltMaxDist, -1) : Int × Int).2).getD mlast,
          ((fltMaxDist, -1) : Int × Int).1)
        = (mlast, fltMaxDist) := by
      show ((pyIndex s.metadata (-1)).getD mlast, fltMaxDist) = (mlast, fltMaxDist)
      rw [pyIndex_neg_one s.metadata hmetne, hmlast]
      rfl
    rw [hgpad]
    congr 1
    omega

/-- Store used by the C2 counterexample and witness: one vector, built by
one add_document call on the fresh store. -/
def c2Store : VectorStore Nat := ⟨384, [List.replicate 384 0], [7]⟩

set_option maxRecDepth 8192 in
/-- Counterexample to claim C2: a store holding n = 1 vector searched with
k = 2 returns two result pairs, not min(2, 1) = 1; faiss pads the second
slot with index -1 and the sentinel distance, and Python negative indexing
resolves -1 to the last metadata record. -/
theorem c2_min_count_cex :
    VectorStore.add_document (VectorStore.init Nat)
        (.one (List.replicate 384 0)) 7 = .ok c2Store ∧
    VectorStore.search (fun _ => List.replicate 384 0) c2Store "any query" 2
      = .ok [(7, 0), (7, fltMaxDist)] ∧
    ([((7 : Nat), (0 : Int)), (7, fltMaxDist)]).length
      ≠ min 2 c2Store.vectors.length := by
  refine ⟨by rfl, by rfl, by decide⟩

set_option maxRecDepth 8192 in
/-- Witness for C2 at the one-vector store with k = 2. -/
theorem c2_search_returns_k_padded_witness :
    (c2Store.vectors ≠ [] ∧ c2Store.aligned) ∧
    (∃ res, VectorStore.search (fun _ => List.replicate 384 0) c2Store
        "any query" 2 = .ok res ∧
      res.length = 2 ∧
      List.Pairwise (fun x y => x.2 ≤ y.2)
        (res.take (min 2 c2Store.vectors.length)) ∧
      (∀ pr ∈ res.take (min 2 c2Store.vectors.length), ∃ i v m,
          c2Store.vectors.get? i = some v ∧ c2Store.metadata.get? i = some m ∧
          pr = (m, sqDistL2 (List.replicate 384 0) v)) ∧
      (∃ mlast, c2Store.metadata.getLast? = some mlast ∧
        res.drop (min 2 c2Store.vectors.length)
          = List.replicate (2 - min 2 c2Store.vectors.length)
              (mlast, fltMaxDist))) :=
  ⟨⟨by decide, by rfl⟩,
   c2_search_returns_k_padded (fun _ => List.replicate 384 0) c2Store
     "any query" 2 (by decide) (by rfl)⟩
